import Mathlib

/-!
Shallow embedding of the swap-configuration core of comit-network/droplet:
the `Asset`/`State`/`Action` data model and the `reducer` from the web app
(`src/unnamed/part_001`, the file exporting `App` and `reducer`), the
`AssetSelector.onAmountChange` handler, and the beta-amount calculator.
Amount and rate numbers are modelled as `Rat`; amount strings stay `String`,
exactly as the source stores them.
-/

namespace Droplet

/-- `enum Asset { LBTC = "L-BTC", USDT = "USDt" }`: the closed two-member set
of tradable assets. -/
inductive Asset where
  | LBTC
  | USDT
deriving DecidableEq, Repr

/-- `interface AssetState { type: Asset; amount: string }`: one leg of the
swap; the amount is kept as the raw string the user typed. -/
structure AssetState where
  type : Asset
  amount : String
deriving DecidableEq, Repr

/-- `interface Rate { ask: number; bid: number }`. -/
structure Rate where
  ask : Rat
  bid : Rat
deriving DecidableEq, Repr

/-- `interface WalletStatus { exists: boolean; loaded: boolean }`. -/
structure WalletStatus where
  «exists» : Bool
  loaded : Bool
deriving DecidableEq, Repr

/-- `interface Balances { usdt: number; btc: number }`. -/
structure Balances where
  usdt : Rat
  btc : Rat
deriving DecidableEq, Repr

/-- The wallet balance record carried in the state at runtime
(`{ usdtBalance, btcBalance }`, the shape written by the `UpdateBalance`
case and by `initialState`). -/
structure WalletBalance where
  usdtBalance : Rat
  btcBalance : Rat
deriving DecidableEq, Repr

/-- The wallet record as it exists at runtime: `initialState` gives it both a
`balance` and a `status`, and the reducer updates both. -/
structure Wallet where
  balance : WalletBalance
  status : WalletStatus
deriving DecidableEq, Repr

/-- The reducer's state as it exists at runtime: the declared `State`
interface lists `alpha`, `beta`, `txId`, `wallet`; `initialState` also
carries a `rate`, preserved by every spread `{...state}`. -/
structure State where
  alpha : AssetState
  beta : Asset
  rate : Rate
  txId : String
  wallet : Wallet
deriving DecidableEq, Repr

/-- `initialState` from the source: alpha `L-BTC` with amount `"0.01"`,
beta `USDt`, rate `{ask: 33766.30, bid: 33670.10}`, empty `txId`,
zero balances, wallet neither existing nor loaded. -/
def initialState : State :=
  { alpha := { type := Asset.LBTC, amount := "0.01" }
    beta := Asset.USDT
    rate := { ask := 33766.30, bid := 33670.10 }
    txId := ""
    wallet :=
      { balance := { usdtBalance := 0, btcBalance := 0 }
        status := { «exists» := false, loaded := false } } }

/-- The `Action` union type, one constructor per variant of the TypeScript
union. `Unknown kind` stands for a runtime action object whose `type` string
is `kind`, matching none of the reducer switch's case labels (the object that
reaches the `default` branch; that branch never reads `action.value`, so no
payload is carried). -/
inductive Action where
  | UpdateAlphaAmount (value : String)
  | UpdateAlphaAssetType (value : Asset)
  | UpdateBetaAssetType (value : Asset)
  | SwapAssetTypes (betaAmount : Rat)
  | PublishTransaction (value : String)
  | UpdateWalletStatus (value : WalletStatus)
  | UpdateBalance (value : Balances)
  | Unknown (kind : String)
deriving DecidableEq, Repr

/-- The case labels of the reducer's `switch (action.type)`. -/
def handledKinds : List String :=
  ["UpdateAlphaAmount", "UpdateAlphaAssetType", "UpdateBetaAssetType",
   "SwapAssetTypes", "PublishTransaction", "UpdateBalance", "UpdateWalletStatus"]

/-- The value returned by `reducer(state, action)`. Each handled case returns
a fresh object built by spreading `state`; the `default` case throws
`Error("Unknown update action received")`, modelled as `Except.error`. -/
def reducer (state : State) (action : Action) : Except String State :=
  match action with
  | .UpdateAlphaAmount value =>
      .ok { state with alpha := { type := state.alpha.type, amount := value } }
  | .UpdateAlphaAssetType value =>
      let beta := if state.beta = value then state.alpha.type else state.beta
      .ok { state with
              beta := beta
              alpha := { type := value, amount := state.alpha.amount } }
  | .UpdateBetaAssetType value =>
      let alpha :=
        if state.alpha.type = value then
          { state.alpha with type := state.beta }
        else state.alpha
      .ok { state with alpha := alpha, beta := value }
  | .SwapAssetTypes _ =>
      .ok { state with
              alpha := { type := state.beta, amount := state.alpha.amount }
              beta := state.alpha.type }
  | .PublishTransaction _ =>
      .ok state
  | .UpdateBalance value =>
      .ok { state with
              wallet := { state.wallet with
                            balance := { usdtBalance := value.usdt
                                         btcBalance := value.btc } } }
  | .UpdateWalletStatus value =>
      .ok { state with
              wallet := { state.wallet with
                            status := { «exists» := value.«exists»
                                        loaded := value.loaded } } }
  | .Unknown _ =>
      .error "Unknown update action received"

/-- The value of the caller's `state` object after `reducer` returns. The
`UpdateBetaAssetType` case binds `let alpha = state.alpha` — an alias of the
input's `alpha` object — and, when `alpha.type === action.value`, executes
`alpha.type = state.beta`, writing through the alias into the input. Every
other case only reads from `state`, so the input is left as it was. -/
def reducerInputAfter (state : State) (action : Action) : State :=
  match action with
  | .UpdateBetaAssetType value =>
      if state.alpha.type = value then
        { state with alpha := { state.alpha with type := state.beta } }
      else state
  | _ => state

/-- States reachable from `initialState` by dispatching any finite sequence
of actions that the reducer handles successfully. -/
inductive Reachable : State → Prop where
  | init : Reachable initialState
  | step (s : State) (a : Action) (s' : State) :
      Reachable s → reducer s a = .ok s' → Reachable s'

/-- `type AssetSide = "Alpha" | "Beta"`. -/
inductive AssetSide where
  | Alpha
  | Beta
deriving DecidableEq, Repr

/-- The action object dispatched by `AssetSelector.onAmountChange`: a `type`
string together with the numeric `value` the Chakra number input produced. -/
structure AmountAction where
  type : String
  value : Rat
deriving DecidableEq, Repr

/-- `AssetSelector.onAmountChange` (src/waves/src/SwapWithWallet.tsx): a
switch on `assetSide` whose `"Alpha"` case dispatches
`{type: "UpdateAlphaAmount", value: newAmount}` and whose `default` case —
reached for every side other than `"Alpha"`, so exactly for `"Beta"` —
throws `Error("Only support editing alpha amount at the moment")`. -/
def onAmountChange (assetSide : AssetSide) (newAmount : Rat) :
    Except String AmountAction :=
  match assetSide with
  | .Alpha => .ok { type := "UpdateAlphaAmount", value := newAmount }
  | .Beta => .error "Only support editing alpha amount at the moment"

/-- The two rate directions of §4.2. -/
inductive Direction where
  | ask
  | bid
deriving DecidableEq, Repr

/-- Modelled from the spec: the web app imports `getDirection` from
`./calculateBetaAmount`, a source file not present in the repository
snapshot (only its importers are). Spec §4.2: the direction is a function of
the alpha asset type alone — `bid` when the base asset L-BTC is being sold,
`ask` when the quote asset USDt is being spent. -/
def getDirection (alphaType : Asset) : Direction :=
  match alphaType with
  | .LBTC => .bid
  | .USDT => .ask

/-- Modelled from the spec: `calculateBetaAmount` from `./calculateBetaAmount`,
a source file not present in the repository snapshot. Spec §4.2: in the bid
direction `beta = alphaAmount * rate.bid`; in the ask direction
`beta = alphaAmount / rate.ask`; step 3 (with §7's "Non-computable quote"
path): if `alphaAmount` is not a finite non-negative number, the calculator
returns a degenerate zero result instead. In the `Rat` embedding the
representable part of that branch is the negative amounts (non-finite
numbers have no `Rat` counterpart). -/
def calculateBetaAmount (alphaType : Asset) (alphaAmount : Rat) (rate : Rate) :
    Rat :=
  if alphaAmount < 0 then 0
  else
    match getDirection alphaType with
    | .bid => alphaAmount * rate.bid
    | .ask => alphaAmount / rate.ask

/-! ## Theorems -/

/-- Helper: every successful reducer transition keeps `txId`. -/
theorem reducer_ok_txId (s : State) (a : Action) (s' : State)
    (h : reducer s a = .ok s') : s'.txId = s.txId := by
  cases a <;> simp [reducer] at h <;> subst h <;> rfl

/-- Helper: every successful reducer transition preserves
`alpha.type ≠ beta`. -/
theorem reducer_ok_ne (s : State) (a : Action) (s' : State)
    (hne : s.alpha.type ≠ s.beta) (h : reducer s a = .ok s') :
    s'.alpha.type ≠ s'.beta := by
  cases a <;> simp only [reducer] at h <;> try exact Except.noConfusion h
  all_goals injection h with h
  all_goals subst h
  case UpdateAlphaAmount v => exact hne
  case UpdateAlphaAssetType v =>
    show v ≠ if s.beta = v then s.alpha.type else s.beta
    split_ifs with hb
    · exact fun hv => hne (hv.symm.trans hb.symm)
    · exact fun hv => hb hv.symm
  case UpdateBetaAssetType v =>
    show (if s.alpha.type = v then { s.alpha with type := s.beta }
          else s.alpha).type ≠ v
    split_ifs with ha
    · exact fun hv => hne (ha.trans hv.symm)
    · exact ha
  case SwapAssetTypes b => exact hne.symm
  case PublishTransaction v => exact hne
  case UpdateWalletStatus v => exact hne
  case UpdateBalance v => exact hne

/-- C1: starting from `initialState` (alpha L-BTC amount "0.01", beta USDt),
every state reachable by dispatching any finite sequence of reducer actions
satisfies `alpha.type ≠ beta`. -/
theorem reachable_alpha_ne_beta (s : State) (h : Reachable s) :
    s.alpha.type ≠ s.beta := by
  induction h with
  | init => decide
  | step s a s' _ hred ih => exact reducer_ok_ne s a s' ih hred

/-- Witness for C1: the invariant theorem applied at the concrete reachable
state `initialState`. -/
theorem reachable_alpha_ne_beta_witness :
    Reachable initialState ∧ initialState.alpha.type ≠ initialState.beta :=
  ⟨Reachable.init, reachable_alpha_ne_beta initialState Reachable.init⟩

/-- C2: for every state, `SwapAssetTypes` exchanges the leg types (new
`alpha.type` = old `beta`, new `beta` = old `alpha.type`) while leaving
`alpha.amount` exactly as-is; applying it twice restores the original
`alpha.type` and `beta`; and the result does not depend on the `betaAmount`
the action carries. -/
theorem swapAssetTypes_spec (s : State) (b b' : Rat) :
    (∃ s₁, reducer s (.SwapAssetTypes b) = .ok s₁
      ∧ s₁.alpha.type = s.beta
      ∧ s₁.beta = s.alpha.type
      ∧ s₁.alpha.amount = s.alpha.amount
      ∧ ∃ s₂, reducer s₁ (.SwapAssetTypes b') = .ok s₂
          ∧ s₂.alpha.type = s.alpha.type
          ∧ s₂.beta = s.beta
          ∧ s₂.alpha.amount = s.alpha.amount)
    ∧ reducer s (.SwapAssetTypes b) = reducer s (.SwapAssetTypes b') :=
  ⟨⟨_, rfl, rfl, rfl, rfl, _, rfl, rfl, rfl, rfl⟩, rfl⟩

/-- C3 evidence: evaluating the model of the in-place effect at the failing
input. At `initialState` (`alpha.type` L-BTC), `UpdateBetaAssetType(L-BTC)`
writes through the alias `let alpha = state.alpha`, leaving the caller's
state object with `alpha.type` USDt: the input is modified, so the reducer
is not free of side effects. -/
theorem updateBetaAssetType_mutates_input :
    (reducerInputAfter initialState
        (.UpdateBetaAssetType Asset.LBTC)).alpha.type = Asset.USDT
    ∧ initialState.alpha.type = Asset.LBTC
    ∧ reducerInputAfter initialState (.UpdateBetaAssetType Asset.LBTC)
        ≠ initialState := by
  refine ⟨rfl, rfl, ?_⟩
  decide

/-- C4: for every state and asset `v`, `UpdateAlphaAssetType(v)` sets
`alpha.type` to `v`, keeps `alpha.amount`, and reassigns `beta` to the old
`alpha.type` exactly when the old `beta` equals `v`, leaving it unchanged
otherwise. -/
theorem updateAlphaAssetType_spec (s : State) (v : Asset) :
    ∃ s', reducer s (.UpdateAlphaAssetType v) = .ok s'
      ∧ s'.alpha.type = v
      ∧ s'.alpha.amount = s.alpha.amount
      ∧ s'.beta = (if s.beta = v then s.alpha.type else s.beta) :=
  ⟨_, rfl, rfl, rfl, rfl⟩

/-- C5: for every state and asset `v`, `UpdateBetaAssetType(v)` sets `beta`
to `v`, reassigns `alpha.type` to the old `beta` exactly when the old
`alpha.type` equals `v` (leaving it unchanged otherwise), and keeps
`alpha.amount` in both cases. -/
theorem updateBetaAssetType_spec (s : State) (v : Asset) :
    ∃ s', reducer s (.UpdateBetaAssetType v) = .ok s'
      ∧ s'.beta = v
      ∧ s'.alpha.type = (if s.alpha.type = v then s.beta else s.alpha.type)
      ∧ s'.alpha.amount = s.alpha.amount := by
  refine ⟨_, rfl, rfl, ?_, ?_⟩ <;> by_cases h : s.alpha.type = v <;>
    simp [reducer, h]

/-- C6: dispatching an action whose `type` string is none of the switch's
case labels always hits the `default` branch, which throws
`Error("Unknown update action received")`; the reducer never returns a state
for such an action. -/
theorem unknown_action_errors (s : State) (k : String)
    (_hk : k ∉ handledKinds) :
    reducer s (.Unknown k) = .error "Unknown update action received"
    ∧ ∀ s', reducer s (.Unknown k) ≠ .ok s' :=
  ⟨rfl, fun _ h => Except.noConfusion h⟩

/-- Witness for C6: the kind `"Reset"` is not a case label, and dispatching
it at `initialState` produces the error. -/
theorem unknown_action_errors_witness :
    "Reset" ∉ handledKinds
    ∧ reducer initialState (.Unknown "Reset")
        = .error "Unknown update action received" :=
  ⟨by decide, (unknown_action_errors initialState "Reset" (by decide)).1⟩

/-- C7: for every quote-computable (non-negative) amount, the beta-amount
calculator applies the bid rate (`beta = alphaAmount * rate.bid`) whenever
the alpha asset is the base asset L-BTC and the ask rate
(`beta = alphaAmount / rate.ask`) whenever it is the quote asset USDt — the
direction depending on the alpha asset type alone — and in particular
`calculate(LBTC, 1, {bid: 30000, ask: 30100}) = 30000` and
`calculate(USDT, 30100, {bid: 30000, ask: 30100}) = 1`. -/
theorem calculateBetaAmount_spec :
    (∀ (a : Rat) (r : Rate), 0 ≤ a →
      getDirection Asset.LBTC = Direction.bid
      ∧ getDirection Asset.USDT = Direction.ask
      ∧ calculateBetaAmount Asset.LBTC a r = a * r.bid
      ∧ calculateBetaAmount Asset.USDT a r = a / r.ask)
    ∧ calculateBetaAmount Asset.LBTC 1 { ask := 30100, bid := 30000 } = 30000
    ∧ calculateBetaAmount Asset.USDT 30100 { ask := 30100, bid := 30000 } = 1 := by
  refine ⟨fun a r h => ⟨rfl, rfl, ?_, ?_⟩, ?_, ?_⟩
  · simp [calculateBetaAmount, getDirection, not_lt.2 h]
  · simp [calculateBetaAmount, getDirection, not_lt.2 h]
  · norm_num [calculateBetaAmount, getDirection]
  · norm_num [calculateBetaAmount, getDirection]

/-- Witness for C7: the bid-rate conjunct applied at the concrete
non-negative amount 2. -/
theorem calculateBetaAmount_spec_witness :
    (0 : Rat) ≤ 2
    ∧ calculateBetaAmount Asset.LBTC 2 { ask := 30100, bid := 30000 }
        = 2 * (30000 : Rat) :=
  ⟨by norm_num,
   (calculateBetaAmount_spec.1 2 { ask := 30100, bid := 30000 }
      (by norm_num)).2.2.1⟩

/-- C8: for every state and amount string `v`, `UpdateAlphaAmount(v)` sets
`alpha.amount` to `v` and leaves `alpha.type` and `beta` unchanged. -/
theorem updateAlphaAmount_spec (s : State) (v : String) :
    ∃ s', reducer s (.UpdateAlphaAmount v) = .ok s'
      ∧ s'.alpha.amount = v
      ∧ s'.alpha.type = s.alpha.type
      ∧ s'.beta = s.beta :=
  ⟨_, rfl, rfl, rfl, rfl⟩

/-- C9: `AssetSelector.onAmountChange` throws for the Beta side — the only
`AssetSide` other than Alpha, so the `default` branch — for every amount,
and never dispatches an action there; for the Alpha side it dispatches
`UpdateAlphaAmount` with the given amount. -/
theorem onAmountChange_beta_rejected (amt : Rat) :
    onAmountChange AssetSide.Beta amt
        = .error "Only support editing alpha amount at the moment"
    ∧ (∀ a, onAmountChange AssetSide.Beta amt ≠ .ok a)
    ∧ onAmountChange AssetSide.Alpha amt
        = .ok { type := "UpdateAlphaAmount", value := amt } :=
  ⟨rfl, fun _ h => Except.noConfusion h, rfl⟩

/-- C10: `PublishTransaction` returns a state equal to its input (the carried
transaction id is not recorded); `UpdateWalletStatus` and `UpdateBalance`
leave the swap legs `alpha` and `beta` (and `txId`) unchanged; no handled
action ever writes `txId`; hence `txId` keeps its initial empty-string value
in every reachable state. -/
theorem reducer_frame (s : State) (v : String) (ws : WalletStatus)
    (b : Balances) :
    reducer s (.PublishTransaction v) = .ok s
    ∧ (∃ s₁, reducer s (.UpdateWalletStatus ws) = .ok s₁
        ∧ s₁.alpha = s.alpha ∧ s₁.beta = s.beta ∧ s₁.txId = s.txId)
    ∧ (∃ s₂, reducer s (.UpdateBalance b) = .ok s₂
        ∧ s₂.alpha = s.alpha ∧ s₂.beta = s.beta ∧ s₂.txId = s.txId)
    ∧ (∀ (a : Action) (s' : State), reducer s a = .ok s' → s'.txId = s.txId)
    ∧ (∀ t, Reachable t → t.txId = "") := by
  refine ⟨rfl, ⟨_, rfl, rfl, rfl, rfl⟩, ⟨_, rfl, rfl, rfl, rfl⟩,
    reducer_ok_txId s, ?_⟩
  intro t ht
  induction ht with
  | init => rfl
  | step u a u' _ hred ih => exact (reducer_ok_txId u a u' hred).trans ih

/-- Witness for C10: the frame theorem applied at concrete inputs — the
`txId`-preservation conjunct at `UpdateAlphaAmount "1"` from `initialState`,
and the reachable-`txId` conjunct at `initialState` itself. -/
theorem reducer_frame_witness :
    ({ initialState with
        alpha := { type := initialState.alpha.type, amount := "1" } } :
      State).txId = initialState.txId
    ∧ initialState.txId = "" :=
  ⟨(reducer_frame initialState "t" { «exists» := true, loaded := true }
      { usdt := 1, btc := 2 }).2.2.2.1 (.UpdateAlphaAmount "1") _ rfl,
   (reducer_frame initialState "t" { «exists» := true, loaded := true }
      { usdt := 1, btc := 2 }).2.2.2.2 initialState Reachable.init⟩

end Droplet
